import Mathlib

/-!
Shallow embedding of the session/authentication coordinator
(`src/pages/EnablePayments/PersonalInfo/substeps/SocialSecurityNumber.tsx`,
which concatenates the SocialSecurityNumber form component and the session
actions module) together with proofs of the spec's claims about it.

JavaScript strings are embedded as `String`, nullable values as `Option`,
JS truthiness of a nullable string as "present and non-empty", and the
reactive Onyx store operations (`merge` / `set`) as explicit functions on a
`SessionData` record.  Asynchronous callback sequencing is embedded as
explicit state passing plus event traces.
-/

namespace SessionModule

/-- `AutoAuthState` enum (`CONST.AUTO_AUTH_STATE`): coarse state machine of
the magic-link auto-authentication flow. -/
inductive AutoAuthState where
  | notStarted
  | signingIn
  | justSignedIn
  | failed
deriving DecidableEq, Repr

/-- JS truthiness of a nullable string: `null`/`undefined` and `''` are
falsy, every other string is truthy. -/
def truthy : Option String → Bool
  | none => false
  | some s => s ≠ ""

/-- The `Session` Onyx record: `{authToken, authTokenType, autoAuthState,
supportAuthToken, email, accountID}` (§3 of the spec); every field is
nullable. -/
structure SessionData where
  authToken : Option String
  authTokenType : Option String
  autoAuthState : Option AutoAuthState
  supportAuthToken : Option String
  email : Option String
  accountID : Option Nat
deriving DecidableEq, Repr

/-- The empty session object `{}`: every field absent. -/
def emptySession : SessionData :=
  { authToken := none, authTokenType := none, autoAuthState := none,
    supportAuthToken := none, email := none, accountID := none }

/-- A partial session object handed to `Onyx.merge(ONYXKEYS.SESSION, …)`:
a field that is `none` is absent from the patch, a field that is `some v`
is set to `v` by the merge. -/
structure SessionPatch where
  authToken : Option String
  authTokenType : Option String
  autoAuthState : Option AutoAuthState
  supportAuthToken : Option String
  email : Option String
  accountID : Option Nat
deriving DecidableEq, Repr

/-- The all-absent session patch, used as the base for patch literals. -/
def SessionPatch.empty : SessionPatch :=
  { authToken := none, authTokenType := none, autoAuthState := none,
    supportAuthToken := none, email := none, accountID := none }

/-- `Onyx.merge(ONYXKEYS.SESSION, patch)`: every field present in the patch
overwrites the stored field; absent fields are left unchanged. -/
def mergeSession (s : SessionData) (p : SessionPatch) : SessionData :=
  { authToken := if p.authToken.isSome then p.authToken else s.authToken,
    authTokenType := if p.authTokenType.isSome then p.authTokenType else s.authTokenType,
    autoAuthState := if p.autoAuthState.isSome then p.autoAuthState else s.autoAuthState,
    supportAuthToken := if p.supportAuthToken.isSome then p.supportAuthToken else s.supportAuthToken,
    email := if p.email.isSome then p.email else s.email,
    accountID := if p.accountID.isSome then p.accountID else s.accountID }

/-- `signedInStates` local of `initAutoAuthState`:
`[CONST.AUTO_AUTH_STATE.SIGNING_IN, CONST.AUTO_AUTH_STATE.JUST_SIGNED_IN]`. -/
def signedInStates : List AutoAuthState :=
  [AutoAuthState.signingIn, AutoAuthState.justSignedIn]

/-- The session patch that `initAutoAuthState(cachedAutoAuthState)` passes to
`Onyx.merge(ONYXKEYS.SESSION, …)`: only `autoAuthState` is present, set to
`JUST_SIGNED_IN` when the cached state is in `signedInStates` and to
`NOT_STARTED` otherwise. -/
def initAutoAuthStatePatch (cachedAutoAuthState : AutoAuthState) : SessionPatch :=
  { SessionPatch.empty with
    autoAuthState := some (if signedInStates.contains cachedAutoAuthState
      then AutoAuthState.justSignedIn else AutoAuthState.notStarted) }

/-- `initAutoAuthState(cachedAutoAuthState)` acting on the stored session:
the merge of its patch. -/
def initAutoAuthState (cachedAutoAuthState : AutoAuthState) (s : SessionData) : SessionData :=
  mergeSession s (initAutoAuthStatePatch cachedAutoAuthState)

/-! ### Module-level mirror state and the session subscription

The module keeps `sessionAuthTokenType`, `sessionAuthToken` and
`authPromiseResolver` as module-level variables; the `Onyx.connect`
subscription on `ONYXKEYS.SESSION` updates the first two and fires the
pending resolver.  Promises are identified by a `Nat` id and their
settlements are recorded as an event trace. -/

/-- Settlement of a promise: resolution with a boolean value, or rejection. -/
inductive Settlement where
  | resolved (value : Bool)
  | rejected
deriving DecidableEq, Repr

/-- The module-level variables `sessionAuthTokenType`, `sessionAuthToken`
and `authPromiseResolver` (the single pending waiter slot, holding a
promise id when occupied). -/
structure ModuleState where
  sessionAuthTokenType : Option String
  sessionAuthToken : Option String
  authPromiseResolver : Option Nat
deriving DecidableEq, Repr

/-- Initial values of the module-level variables:
`sessionAuthTokenType = ''`, `sessionAuthToken = null`,
`authPromiseResolver = null`. -/
def initialModuleState : ModuleState :=
  { sessionAuthTokenType := some "", sessionAuthToken := none,
    authPromiseResolver := none }

/-- The `Onyx.connect({key: ONYXKEYS.SESSION, callback})` subscription body:
mirrors `session?.authTokenType ?? null` and `session?.authToken ?? null`
into the module state, then — when the new token is truthy and a resolver
is pending — resolves that promise with `true` and clears the slot.
Returns the new module state and the settlement events emitted. -/
def sessionConnectCallback (st : ModuleState) (session : Option SessionData) :
    ModuleState × List (Nat × Settlement) :=
  let newTokenType := session.bind SessionData.authTokenType
  let newToken := session.bind SessionData.authToken
  let st1 : ModuleState :=
    { st with sessionAuthTokenType := newTokenType, sessionAuthToken := newToken }
  if truthy newToken then
    match st1.authPromiseResolver with
    | some r => ({ st1 with authPromiseResolver := none }, [(r, Settlement.resolved true)])
    | none => (st1, [])
  else
    (st1, [])

/-- `waitForUserSignIn()`: builds a new promise (identified by `pid`); the
executor resolves it with `true` immediately when `sessionAuthToken` is
truthy, and otherwise stores the resolver in the single
`authPromiseResolver` slot (overwriting any previous occupant). -/
def waitForUserSignIn (st : ModuleState) (pid : Nat) :
    ModuleState × List (Nat × Settlement) :=
  if truthy st.sessionAuthToken then
    (st, [(pid, Settlement.resolved true)])
  else
    ({ st with authPromiseResolver := some pid }, [])

/-- `isAnonymousUser()`: true iff the mirrored `sessionAuthTokenType`
equals the literal `'anonymousAccount'`. -/
def isAnonymousUser (st : ModuleState) : Bool :=
  st.sessionAuthTokenType == some "anonymousAccount"

/-- Effect emitted by the replacement callback that
`checkIfActionIsAllowed` returns in the disallowed case. -/
inductive ActionEffect where
  | signOutAndRedirectToSignIn
deriving DecidableEq, Repr

/-- `checkIfActionIsAllowed(callback, isAnonymousAction = false)`: returns
the union type `TCallback | (() => void)` embedded as a sum — the original
callback (left) when allowed, or the fresh closure
`() => signOutAndRedirectToSignIn()` (right, embedded as its effect trace)
when the user is anonymous and the action is not anonymous-safe. -/
def checkIfActionIsAllowed {α : Type} (st : ModuleState) (callback : α)
    (isAnonymousAction : Bool := false) : α ⊕ (Unit → List ActionEffect) :=
  if isAnonymousUser st && !isAnonymousAction then
    Sum.inr fun _ => [ActionEffect.signOutAndRedirectToSignIn]
  else
    Sum.inl callback

/-! ### signOut -/

/-- The `Credentials` Onyx record:
`{login, autoGeneratedLogin, autoGeneratedPassword, validateCode}`. -/
structure CredentialsData where
  login : Option String
  autoGeneratedLogin : Option String
  autoGeneratedPassword : Option String
  validateCode : Option String
deriving DecidableEq, Repr

/-- `CONFIG.EXPENSIFY.PARTNER_NAME` / `PARTNER_PASSWORD`: build-time
configuration values (not in src), carried abstractly. -/
structure PartnerConfig where
  partnerName : String
  partnerPassword : String
deriving DecidableEq, Repr

/-- The `LogOutParams` payload built by `signOut`. -/
structure LogOutParams where
  authToken : Option String
  partnerUserID : String
  partnerName : String
  partnerPassword : String
  shouldRetry : Bool
deriving DecidableEq, Repr

/-- The observable steps `signOut` performs, in order. -/
inductive SignOutStep where
  | logFlush
  | apiWriteLogOut (params : LogOutParams)
  | clearCacheInvoked
  | timingClearData
deriving DecidableEq, Repr

/-- Eventual fate of the fire-and-forget `LogOut` command. -/
inductive CommandOutcome where
  | succeeds
  | fails
  | neverResolves
deriving DecidableEq, Repr

/-- `signOut()`: flushes logs, issues the `LogOut` write (fire-and-forget:
no `.then`/`.catch` is attached, so the command's settlement — the
`logOutOutcome` parameter — is never observed and cannot influence the
remaining steps), starts `clearCache()`, and clears timing data.  Returns
the synchronous step trace. -/
def signOut (logOutOutcome : CommandOutcome) (config : PartnerConfig)
    (networkStoreAuthToken : Option String) (credentials : CredentialsData) :
    List SignOutStep :=
  [SignOutStep.logFlush,
   SignOutStep.apiWriteLogOut
     { authToken := networkStoreAuthToken,
       partnerUserID := credentials.autoGeneratedLogin.getD "",
       partnerName := config.partnerName,
       partnerPassword := config.partnerPassword,
       shouldRetry := false },
   SignOutStep.clearCacheInvoked,
   SignOutStep.timingClearData]

/-! ### reauthenticatePusher throttling -/

/-- Modelled from the spec: the lodash `throttle` utility (not in src)
with `trailing: false`, per §4.1 — "rate-limited (min 5 seconds between
executions, no trailing call)".  The state remembers the time of the last
execution. -/
structure ThrottleState where
  lastExecTime : Option Nat
deriving DecidableEq, Repr

/-- Modelled from the spec: one invocation of a leading-edge throttled
function at time `now` — the wrapped body executes (and the execution
time is recorded) when no execution happened within the last `wait`
milliseconds; otherwise the invocation is dropped, never deferred to a
trailing call.  Returns the new state and whether the body executed. -/
def throttleInvoke (wait : Nat) (st : ThrottleState) (now : Nat) :
    ThrottleState × Bool :=
  match st.lastExecTime with
  | none => (⟨some now⟩, true)
  | some last => if last + wait ≤ now then (⟨some now⟩, true) else (st, false)

/-- The throttle window of `reauthenticatePusher`: `5000` milliseconds
(`throttle(…, 5000, {trailing: false})`). -/
def REAUTHENTICATE_PUSHER_WAIT : Nat := 5000

/-- One invocation of the throttled `reauthenticatePusher` at time `now`. -/
def reauthenticatePusherInvoke (st : ThrottleState) (now : Nat) :
    ThrottleState × Bool :=
  throttleInvoke REAUTHENTICATE_PUSHER_WAIT st now

/-- Run a sequence of `reauthenticatePusher` invocations at the given
times; returns the final throttle state and how many times the underlying
re-authentication body executed. -/
def runReauthenticateInvocations (st : ThrottleState) :
    List Nat → ThrottleState × Nat
  | [] => (st, 0)
  | t :: ts =>
    let step := reauthenticatePusherInvoke st t
    let rest := runReauthenticateInvocations step.1 ts
    (rest.1, (if step.2 then 1 else 0) + rest.2)

/-! ### authenticatePusher -/

/-- Modelled from the spec: `CONST.JSON_CODE.SUCCESS` (not in src) — the
success sentinel of the backend's `jsonCode` response field (§6). -/
def JSON_CODE_SUCCESS : Nat := 200

/-- Modelled from the spec: `CONST.JSON_CODE.NOT_AUTHENTICATED` (not in
src) — the not-authenticated sentinel of the backend's `jsonCode`
response field (§6); distinct from the success sentinel. -/
def JSON_CODE_NOT_AUTHENTICATED : Nat := 407

/-- A backend response to the `AuthenticatePusher` command: a `jsonCode`,
an optional `message`, and the channel-authorization payload fields. -/
structure AuthResponse where
  jsonCode : Option Nat
  message : Option String
  auth : Option String
  sharedSecret : Option String
deriving DecidableEq, Repr

/-- JS template-literal interpolation of a possibly-undefined number. -/
def jsNatString : Option Nat → String
  | none => "undefined"
  | some n => toString n

/-- JS template-literal interpolation of a possibly-undefined string. -/
def jsOptString : Option String → String
  | none => "undefined"
  | some s => s

/-- Message of the error built when the backend reports
`NOT_AUTHENTICATED`. -/
def expiredAuthErrorMessage : String :=
  "Pusher failed to authenticate because authToken is expired"

/-- Message of the error built when the backend reports any other
non-success `jsonCode`. -/
def badCodeErrorMessage (jsonCode : Option Nat) (message : Option String) : String :=
  "Pusher failed to authenticate because code: " ++ jsNatString jsonCode
    ++ " message: " ++ jsOptString message

/-- Message of the error built when the `AuthenticatePusher` request
itself fails (the `.catch` branch). -/
def requestFailedErrorMessage : String :=
  "AuthenticatePusher request failed"

/-- The second argument handed to the channel-authorization callback:
either the raw backend response, or the literal `{auth: ''}` object. -/
inductive PusherAuthPayload where
  | raw (response : Option AuthResponse)
  | emptyAuth
deriving DecidableEq, Repr

/-- One invocation of the channel-authorization callback:
`(error | null, payload)`. -/
structure CallbackInvocation where
  error : Option String
  payload : PusherAuthPayload
deriving DecidableEq, Repr

/-- Observable outcome of one `authenticatePusher` call: the callback
invocations it performs and whether `reauthenticatePusher()` was
scheduled. -/
structure AuthenticatePusherOutcome where
  invocations : List CallbackInvocation
  reauthScheduled : Bool
deriving DecidableEq, Repr

/-- `authenticatePusher(socketID, channelName, callback)`: the
continuation attached to `API.makeRequestWithSideEffects`.  `result` is
the settled request: `.ok response` when the promise fulfilled (with a
possibly-undefined response) and `.error` when it rejected (handled by
the `.catch` branch). -/
def authenticatePusher (result : Except Unit (Option AuthResponse)) :
    AuthenticatePusherOutcome :=
  match result with
  | Except.error _ =>
    { invocations := [⟨some requestFailedErrorMessage, PusherAuthPayload.emptyAuth⟩],
      reauthScheduled := false }
  | Except.ok response =>
    if response.bind AuthResponse.jsonCode = some JSON_CODE_NOT_AUTHENTICATED then
      { invocations := [⟨some expiredAuthErrorMessage, PusherAuthPayload.emptyAuth⟩],
        reauthScheduled := true }
    else if response.bind AuthResponse.jsonCode ≠ some JSON_CODE_SUCCESS then
      { invocations := [⟨some (badCodeErrorMessage (response.bind AuthResponse.jsonCode)
          (response.bind AuthResponse.message)), PusherAuthPayload.emptyAuth⟩],
        reauthScheduled := false }
    else
      { invocations := [⟨none, PusherAuthPayload.raw response⟩],
        reauthScheduled := false }

/-! ### setSupportAuthToken -/

/-- Result of `setSupportAuthToken`: the new stored session and the value
handed to `NetworkStore.setSupportAuthToken`. -/
structure SetSupportAuthTokenResult where
  session : SessionData
  networkSupportAuthToken : String
deriving DecidableEq, Repr

/-- `setSupportAuthToken(supportAuthToken, email, accountID)`: with a
truthy token, merges `{authToken: '1', supportAuthToken, email,
accountID}` into the session; with an empty token, sets the session to
`{}`; in both cases forwards the token to the network store. -/
def setSupportAuthToken (supportAuthToken email : String) (accountID : Nat)
    (s : SessionData) : SetSupportAuthTokenResult :=
  if supportAuthToken ≠ "" then
    { session := mergeSession s
        { SessionPatch.empty with
          authToken := some "1",
          supportAuthToken := some supportAuthToken,
          email := some email,
          accountID := some accountID },
      networkSupportAuthToken := supportAuthToken }
  else
    { session := emptySession,
      networkSupportAuthToken := supportAuthToken }

/-! ### signInWithValidateCode -/

/-- A partial `Account` object handed to `Onyx.merge(ONYXKEYS.ACCOUNT, …)`.
`spreadsDefaultAccountData` records whether the literal spreads
`CONST.DEFAULT_ACCOUNT_DATA` first; a `loadingForm` of `some none` is an
explicit `null`. -/
structure AccountPatch where
  spreadsDefaultAccountData : Bool
  isLoading : Option Bool
  loadingForm : Option (Option String)
deriving DecidableEq, Repr

/-- A partial `Credentials` object handed to
`Onyx.merge(ONYXKEYS.CREDENTIALS, …)`. -/
structure CredentialsPatch where
  accountID : Option Nat
  validateCode : Option String
deriving DecidableEq, Repr

/-- One entry of an optimistic/success/failure data list: an
`{onyxMethod: MERGE, key, value}` update (every update built by
`signInWithValidateCode` uses the merge method). -/
inductive OnyxWrite where
  | sessionMerge (p : SessionPatch)
  | accountMerge (p : AccountPatch)
  | credentialsMerge (p : CredentialsPatch)
deriving DecidableEq, Repr

/-- Modelled from the spec: `CONST.FORMS.VALIDATE_CODE_FORM` (not in src),
the loading-form tag of the plain magic-code step. -/
def VALIDATE_CODE_FORM : String := "validateCodeForm"

/-- Modelled from the spec: `CONST.FORMS.VALIDATE_TFA_CODE_FORM` (not in
src), the loading-form tag of the two-factor step. -/
def VALIDATE_TFA_CODE_FORM : String := "validateTfaCodeForm"

/-- The `SignInUserWithLink` request parameters built by
`signInWithValidateCode`. -/
structure SignInUserWithLinkParams where
  accountID : Nat
  validateCode : Option String
  twoFactorAuthCode : String
deriving DecidableEq, Repr

/-- Everything `signInWithValidateCode` hands to `API.write`. -/
structure SignInWithValidateCodeCall where
  params : SignInUserWithLinkParams
  optimisticData : List OnyxWrite
  successData : List OnyxWrite
  failureData : List OnyxWrite
deriving DecidableEq, Repr

/-- `signInWithValidateCode(accountID, code, twoFactorAuthCode = '')`:
chooses the validate code (from the Credential Store when a two-factor
code is present, else the caller-supplied `code`), and builds the
optimistic/success/failure patch lists around the `SigninUserWithLink`
command. -/
def signInWithValidateCode (credentials : CredentialsData) (accountID : Nat)
    (code : String) (twoFactorAuthCode : String := "") :
    SignInWithValidateCodeCall :=
  let validateCode : Option String :=
    if twoFactorAuthCode ≠ "" then credentials.validateCode else some code
  { params := { accountID, validateCode, twoFactorAuthCode },
    optimisticData := [
      OnyxWrite.accountMerge
        { spreadsDefaultAccountData := true,
          isLoading := some true,
          loadingForm := some (some (if twoFactorAuthCode ≠ ""
            then VALIDATE_TFA_CODE_FORM else VALIDATE_CODE_FORM)) },
      OnyxWrite.sessionMerge
        { SessionPatch.empty with autoAuthState := some AutoAuthState.signingIn }],
    successData := [
      OnyxWrite.accountMerge
        { spreadsDefaultAccountData := false,
          isLoading := some false,
          loadingForm := some none },
      OnyxWrite.credentialsMerge
        { accountID := some accountID, validateCode := validateCode },
      OnyxWrite.sessionMerge
        { SessionPatch.empty with autoAuthState := some AutoAuthState.justSignedIn }],
    failureData := [
      OnyxWrite.accountMerge
        { spreadsDefaultAccountData := false,
          isLoading := some false,
          loadingForm := some none },
      OnyxWrite.sessionMerge
        { SessionPatch.empty with autoAuthState := some AutoAuthState.failed }] }

/-- The `autoAuthState` values carried by the session merges of a patch
list, in order. -/
def sessionAutoAuthUpdates (l : List OnyxWrite) : List (Option AutoAuthState) :=
  l.filterMap fun w =>
    match w with
    | OnyxWrite.sessionMerge p => some p.autoAuthState
    | _ => none

/-! ### canAccessRouteByAnonymousUser

Routes are embedded as `List Char` (JS strings) so that the
first-occurrence `String.prototype.replace` and the leading-character
tests can be reasoned about directly.  The two report-route helpers
(`ReportUtils.getReportIDFromLink`, which yields `''` when the link
encodes no report, and `ReportUtils.parseReportRouteParams`, whose
`reportID` member may be empty) are not in src and are taken as
parameters. -/

/-- JS `String.prototype.replace` with a string pattern: replaces only
the first occurrence of `pat` by `rep` (identity when there is no
occurrence; with an empty pattern, inserts `rep` at the front). -/
def replaceFirst (pat rep : List Char) : List Char → List Char
  | [] => if pat = [] then rep else []
  | c :: rest =>
    if pat.isPrefixOf (c :: rest) then rep ++ (c :: rest).drop pat.length
    else c :: replaceFirst pat rep rest

/-- Modelled from the spec: `ROUTES.SIGN_IN_MODAL` (not in src) — the
sign-in modal route template of the allow list. -/
def ROUTES_SIGN_IN_MODAL : List Char := "sign-in-modal".data

/-- Modelled from the spec: `ROUTES.REPORT_WITH_ID_DETAILS.route` (not in
src) — the report-details route template of the allow list, with the
report id as the `:reportID` placeholder. -/
def ROUTES_REPORT_WITH_ID_DETAILS : List Char := "r/:reportID/details".data

/-- Modelled from the spec:
`ROUTES.REPORT_WITH_ID_DETAILS_SHARE_CODE.route` (not in src) — the
report-details share-code route template of the allow list. -/
def ROUTES_REPORT_WITH_ID_DETAILS_SHARE_CODE : List Char :=
  "r/:reportID/details/shareCode".data

/-- The fixed allow list `routesCanAccessByAnonymousUser`. -/
def routesCanAccessByAnonymousUser : List (List Char) :=
  [ROUTES_SIGN_IN_MODAL, ROUTES_REPORT_WITH_ID_DETAILS,
   ROUTES_REPORT_WITH_ID_DETAILS_SHARE_CODE]

/-- The `routeRemovedReportId` computation: the route with its parsed
report id (when truthy) replaced by the `:reportID` placeholder — this is
also the claim's "embedded report identifier replaced by ':reportID'"
normalization. -/
def withReportIdPlaceholder (parseReportRouteParams : List Char → Option (List Char))
    (route : List Char) : List Char :=
  match parseReportRouteParams route with
  | some rid =>
    if rid ≠ [] then replaceFirst rid (":reportID".data) route else route
  | none => route

/-- `canAccessRouteByAnonymousUser(route)`: true when the route encodes a
(truthy) report id; otherwise replaces the parsed report id (when truthy)
by `:reportID`, strips the leading `/` (tested on `route`, sliced from the
replaced string) and checks membership in the allow list. -/
def canAccessRouteByAnonymousUser
    (getReportIDFromLink : List Char → List Char)
    (parseReportRouteParams : List Char → Option (List Char))
    (route : List Char) : Bool :=
  let reportID := getReportIDFromLink route
  if reportID ≠ [] then true
  else
    let routeRemovedReportId := withReportIdPlaceholder parseReportRouteParams route
    let routeRemovedReportId' :=
      if route.head? = some '/' then routeRemovedReportId.drop 1
      else routeRemovedReportId
    decide (routeRemovedReportId' ∈ routesCanAccessByAnonymousUser)

/-- The claim's "any leading '/' stripped", applied to the string itself
(the code instead tests `route` and slices the normalized string). -/
def stripLeadingSlash (s : List Char) : List Char :=
  if s.head? = some '/' then s.drop 1 else s

end SessionModule

namespace WalletForm

/-- The wallet-additional-details form fields the social-security-number
step's `validate` reads: `ssnLast4` (the step's declared field) and `ssn`
(the field the format check inspects).  Other form fields are untouched
by this step. -/
structure FormValues where
  ssnLast4 : String
  ssn : String
deriving DecidableEq, Repr

/-- The error record returned by `validate`, restricted to the keys this
step can populate. -/
structure FormErrors where
  ssnLast4 : Option String
  ssn : Option String
deriving DecidableEq, Repr

/-- Field identifiers of the two fields. -/
inductive FieldId where
  | ssnLast4
  | ssn
deriving DecidableEq, Repr

/-- Modelled from the spec: `INPUT_IDS.PERSONAL_INFO_STEP.SSN_LAST_4`
(not in src) is the `ssnLast4` field id; `STEP_FIELDS` lists only it. -/
def STEP_FIELDS : List FieldId := [FieldId.ssnLast4]

/-- The value of a field in a form-values record. -/
def FormValues.value (values : FormValues) : FieldId → String
  | FieldId.ssnLast4 => values.ssnLast4
  | FieldId.ssn => values.ssn

/-- Modelled from the spec: the required-field error that
`ValidationUtils.getFieldRequiredErrors` (not in src) attaches to an
empty listed field. -/
def fieldRequiredError : String := "common.error.fieldRequired"

/-- Modelled from the spec: `ValidationUtils.getFieldRequiredErrors`
(not in src) — an errors record holding the required-field error at
exactly the listed fields whose value is empty. -/
def getFieldRequiredErrors (values : FormValues) (fieldIds : List FieldId) :
    FormErrors :=
  { ssnLast4 :=
      if FieldId.ssnLast4 ∈ fieldIds ∧ values.value FieldId.ssnLast4 = ""
      then some fieldRequiredError else none,
    ssn :=
      if FieldId.ssn ∈ fieldIds ∧ values.value FieldId.ssn = ""
      then some fieldRequiredError else none }

/-- The step's `validate(values)`: required errors for `STEP_FIELDS`,
then — when `values.ssn` is truthy and not a valid last-four SSN
(`ValidationUtils.isValidSSNLastFour` is not in src and is a parameter) —
the `'bankAccount.error.ssnLast4'` error under the `ssn` key. -/
def validate (isValidSSNLastFour : String → Bool) (values : FormValues) :
    FormErrors :=
  let errors := getFieldRequiredErrors values STEP_FIELDS
  if values.ssn ≠ "" ∧ ¬ isValidSSNLastFour values.ssn then
    { errors with ssn := some "bankAccount.error.ssnLast4" }
  else
    errors

end WalletForm

/-! ## Claim theorems -/

namespace SessionModule

/-- C1: for every cached auto-auth state, `initAutoAuthState` merges into
the Session exactly one new `autoAuthState` — `JUST_SIGNED_IN` when the
cached state is `SIGNING_IN` or `JUST_SIGNED_IN`, and `NOT_STARTED` for
every other state — leaving every other session field unchanged. -/
theorem claim_C1_initAutoAuthState (cached : AutoAuthState) (s : SessionData) :
    initAutoAuthStatePatch cached =
      { SessionPatch.empty with
        autoAuthState := some (if cached = AutoAuthState.signingIn ∨ cached = AutoAuthState.justSignedIn
          then AutoAuthState.justSignedIn else AutoAuthState.notStarted) }
    ∧ initAutoAuthState cached s =
      { s with autoAuthState := some (if cached = AutoAuthState.signingIn ∨ cached = AutoAuthState.justSignedIn
          then AutoAuthState.justSignedIn else AutoAuthState.notStarted) } := by
  cases s
  cases cached <;>
    simp [initAutoAuthState, initAutoAuthStatePatch, mergeSession, SessionPatch.empty,
      signedInStates]

/-- C2: `checkIfActionIsAllowed(fn, isAnonymousAction)` returns `fn`
itself whenever the user is not anonymous or the action is marked
anonymous-safe; otherwise it returns the replacement closure whose
invocation performs `signOutAndRedirectToSignIn` — a value independent of
`fn`, so `fn` is never called. -/
theorem claim_C2_checkIfActionIsAllowed {α : Type} (st : ModuleState)
    (callback : α) (isAnonymousAction : Bool) :
    ((isAnonymousUser st = false ∨ isAnonymousAction = true) →
      checkIfActionIsAllowed st callback isAnonymousAction = Sum.inl callback)
    ∧ (isAnonymousUser st = true → isAnonymousAction = false →
        checkIfActionIsAllowed st callback isAnonymousAction =
          Sum.inr (fun _ => [ActionEffect.signOutAndRedirectToSignIn])
        ∧ ∀ callback' : α,
            checkIfActionIsAllowed st callback' isAnonymousAction =
              checkIfActionIsAllowed st callback isAnonymousAction) := by
  refine ⟨?_, ?_⟩
  · rintro (h | h) <;> simp [checkIfActionIsAllowed, h]
  · intro h1 h2
    subst h2
    refine ⟨by simp [checkIfActionIsAllowed, h1], fun callback' => ?_⟩
    simp [checkIfActionIsAllowed, h1]

/-- C2 witness: at the anonymous module state a plain action is replaced
by the sign-out-and-redirect closure, and at a non-anonymous state the
callback is returned unchanged. -/
theorem claim_C2_checkIfActionIsAllowed_witness :
    checkIfActionIsAllowed
        { sessionAuthTokenType := some "anonymousAccount",
          sessionAuthToken := some "tok", authPromiseResolver := none }
        (0 : Nat) false
      = Sum.inr (fun _ => [ActionEffect.signOutAndRedirectToSignIn])
    ∧ checkIfActionIsAllowed initialModuleState (0 : Nat) false = Sum.inl 0 :=
  ⟨((claim_C2_checkIfActionIsAllowed _ 0 false).2 (by decide) rfl).1,
   (claim_C2_checkIfActionIsAllowed _ 0 false).1 (Or.inl (by decide))⟩

/-- C3: `waitForUserSignIn` resolves its promise immediately with `true`
when a truthy session token is present; otherwise it registers the
resolver in the single pending slot (overwriting any previous occupant,
whatever the prior slot contents), the subscription callback resolves the
pending promise with `true` exactly when it observes a truthy token and
leaves it pending otherwise, and no emitted settlement is a rejection or
a `false` resolution. -/
theorem claim_C3_waitForUserSignIn (st : ModuleState) (pid : Nat) :
    (truthy st.sessionAuthToken = true →
      waitForUserSignIn st pid = (st, [(pid, Settlement.resolved true)]))
    ∧ (truthy st.sessionAuthToken = false →
        waitForUserSignIn st pid = ({ st with authPromiseResolver := some pid }, [])
        ∧ (∀ session : Option SessionData,
            truthy (session.bind SessionData.authToken) = true →
              sessionConnectCallback { st with authPromiseResolver := some pid } session =
                ({ sessionAuthTokenType := session.bind SessionData.authTokenType,
                   sessionAuthToken := session.bind SessionData.authToken,
                   authPromiseResolver := none },
                 [(pid, Settlement.resolved true)]))
        ∧ (∀ session : Option SessionData,
            truthy (session.bind SessionData.authToken) = false →
              sessionConnectCallback { st with authPromiseResolver := some pid } session =
                ({ sessionAuthTokenType := session.bind SessionData.authTokenType,
                   sessionAuthToken := session.bind SessionData.authToken,
                   authPromiseResolver := some pid }, [])))
    ∧ (∀ e ∈ (waitForUserSignIn st pid).2, e.2 = Settlement.resolved true)
    ∧ (∀ session : Option SessionData,
        ∀ e ∈ (sessionConnectCallback st session).2, e.2 = Settlement.resolved true) := by
  obtain ⟨tokType, tok, res⟩ := st
  refine ⟨?_, ?_, ?_, ?_⟩
  · intro h
    simp_all [waitForUserSignIn]
  · intro h
    refine ⟨by simp_all [waitForUserSignIn], fun session hs => ?_, fun session hs => ?_⟩
    · simp_all [sessionConnectCallback]
    · simp_all [sessionConnectCallback]
  · intro e he
    simp only [waitForUserSignIn] at he
    split at he <;> simp_all
  · intro session e he
    simp only [sessionConnectCallback] at he
    split at he
    · split at he <;> simp_all
    · simp_all

/-- C3 witness: with a truthy token the promise resolves at once; with no
token the resolver is registered (overwriting a stale one) and the
subscription observing a truthy token then resolves it with `true`. -/
theorem claim_C3_waitForUserSignIn_witness :
    waitForUserSignIn
        { sessionAuthTokenType := some "", sessionAuthToken := some "tok",
          authPromiseResolver := none } 7
      = ({ sessionAuthTokenType := some "", sessionAuthToken := some "tok",
           authPromiseResolver := none }, [(7, Settlement.resolved true)])
    ∧ waitForUserSignIn { initialModuleState with authPromiseResolver := some 3 } 7
      = ({ initialModuleState with authPromiseResolver := some 7 }, [])
    ∧ sessionConnectCallback { initialModuleState with authPromiseResolver := some 7 }
        (some { authToken := some "tok", authTokenType := some "",
                autoAuthState := none, supportAuthToken := none,
                email := none, accountID := none })
      = ({ sessionAuthTokenType := some "", sessionAuthToken := some "tok",
           authPromiseResolver := none }, [(7, Settlement.resolved true)]) :=
  ⟨(claim_C3_waitForUserSignIn _ 7).1 (by decide),
   ((claim_C3_waitForUserSignIn { initialModuleState with authPromiseResolver := some 3 } 7).2.1
     (by decide)).1,
   (((claim_C3_waitForUserSignIn initialModuleState 7).2.1 (by decide)).2.1 _ (by decide))⟩

end SessionModule

namespace SessionModule

/-- The char list of `badCodeErrorMessage`, right-associated. -/
theorem badCodeErrorMessage_data (c : Option Nat) (m : Option String) :
    (badCodeErrorMessage c m).data =
      ("Pusher failed to authenticate because code: " : String).data
        ++ ((jsNatString c).data
          ++ ((" message: " : String).data ++ (jsOptString m).data)) := by
  simp [badCodeErrorMessage, String.data_append, List.append_assoc]

/-- Character 38 of every `badCodeErrorMessage` is the `c` of `code:`. -/
theorem badCodeErrorMessage_get38 (c : Option Nat) (m : Option String) :
    (badCodeErrorMessage c m).data[38]? = some 'c' := by
  rw [badCodeErrorMessage_data, List.getElem?_append, if_pos (by decide)]
  decide

/-- The other-non-success error message never coincides with the
expired-auth-token error message (they differ at character 38). -/
theorem badCodeErrorMessage_ne_expired (c : Option Nat) (m : Option String) :
    badCodeErrorMessage c m ≠ expiredAuthErrorMessage := by
  intro h
  have h38 : (badCodeErrorMessage c m).data[38]? = expiredAuthErrorMessage.data[38]? := by
    rw [h]
  rw [badCodeErrorMessage_get38 c m] at h38
  have ha : expiredAuthErrorMessage.data[38]? = some 'a' := by decide
  rw [ha] at h38
  simp at h38

/-- The other-non-success error message never coincides with the
request-failed error message (it is strictly longer). -/
theorem badCodeErrorMessage_ne_requestFailed (c : Option Nat) (m : Option String) :
    badCodeErrorMessage c m ≠ requestFailedErrorMessage := by
  intro h
  have hl := congrArg String.length h
  have h44 : ("Pusher failed to authenticate because code: " : String).length = 44 := by decide
  have h10 : (" message: " : String).length = 10 := by decide
  have h33 : requestFailedErrorMessage.length = 33 := by decide
  simp [badCodeErrorMessage, String.length_append, h44, h10, h33] at hl
  omega

/-- C4: every settled `AuthenticatePusher` request invokes the callback
exactly once, and the four outcomes are as the source prescribes — the
not-authenticated sentinel yields a non-null error with a scheduled
re-authentication; any other non-success code yields a distinct non-null
error with no re-authentication; success yields a null error with the raw
payload; a rejected request yields a third distinct non-null error. -/
theorem claim_C4_authenticatePusher (result : Except Unit (Option AuthResponse)) :
    (authenticatePusher result).invocations.length = 1
    ∧ (∀ response, result = Except.ok response →
        response.bind AuthResponse.jsonCode = some JSON_CODE_NOT_AUTHENTICATED →
          authenticatePusher result =
            { invocations := [⟨some expiredAuthErrorMessage, PusherAuthPayload.emptyAuth⟩],
              reauthScheduled := true })
    ∧ (∀ response, result = Except.ok response →
        response.bind AuthResponse.jsonCode ≠ some JSON_CODE_NOT_AUTHENTICATED →
        response.bind AuthResponse.jsonCode ≠ some JSON_CODE_SUCCESS →
          authenticatePusher result =
            { invocations := [⟨some (badCodeErrorMessage
                (response.bind AuthResponse.jsonCode) (response.bind AuthResponse.message)),
                PusherAuthPayload.emptyAuth⟩],
              reauthScheduled := false }
          ∧ badCodeErrorMessage (response.bind AuthResponse.jsonCode)
              (response.bind AuthResponse.message) ≠ expiredAuthErrorMessage
          ∧ badCodeErrorMessage (response.bind AuthResponse.jsonCode)
              (response.bind AuthResponse.message) ≠ requestFailedErrorMessage)
    ∧ (∀ response, result = Except.ok response →
        response.bind AuthResponse.jsonCode = some JSON_CODE_SUCCESS →
          authenticatePusher result =
            { invocations := [⟨none, PusherAuthPayload.raw response⟩],
              reauthScheduled := false })
    ∧ (∀ e : Unit, result = Except.error e →
        authenticatePusher result =
          { invocations := [⟨some requestFailedErrorMessage, PusherAuthPayload.emptyAuth⟩],
            reauthScheduled := false }
        ∧ requestFailedErrorMessage ≠ expiredAuthErrorMessage) := by
  refine ⟨?_, ?_, ?_, ?_, ?_⟩
  · cases result with
    | error e => simp [authenticatePusher]
    | ok response =>
      simp only [authenticatePusher]
      split
      · simp
      · split <;> simp
  · rintro response rfl h
    simp [authenticatePusher, h]
  · rintro response rfl h1 h2
    exact ⟨by simp [authenticatePusher, h1, h2],
      badCodeErrorMessage_ne_expired _ _, badCodeErrorMessage_ne_requestFailed _ _⟩
  · rintro response rfl h
    simp [authenticatePusher, h, JSON_CODE_NOT_AUTHENTICATED, JSON_CODE_SUCCESS]
  · rintro e rfl
    exact ⟨by simp [authenticatePusher], by decide⟩

/-- C4 witness: a response carrying the not-authenticated sentinel makes
the callback receive the expired-auth error and schedules the throttled
re-authentication. -/
theorem claim_C4_authenticatePusher_witness :
    authenticatePusher (Except.ok (some
        { jsonCode := some 407, message := none, auth := none, sharedSecret := none }))
      = { invocations := [⟨some expiredAuthErrorMessage, PusherAuthPayload.emptyAuth⟩],
          reauthScheduled := true } :=
  (claim_C4_authenticatePusher _).2.1 _ rfl (by decide)

end SessionModule

namespace SessionModule

/-- After an execution at time `t0`, every further invocation strictly
inside the 5-second window is dropped and leaves the throttle state
unchanged. -/
theorem runReauthenticateInvocations_window (t0 : Nat) :
    ∀ ts : List Nat, (∀ t ∈ ts, t < t0 + REAUTHENTICATE_PUSHER_WAIT) →
      runReauthenticateInvocations ⟨some t0⟩ ts = (⟨some t0⟩, 0)
  | [], _ => rfl
  | t :: ts, h => by
    have ht : t < t0 + REAUTHENTICATE_PUSHER_WAIT := h t (List.mem_cons_self t ts)
    have hrest := runReauthenticateInvocations_window t0 ts
      (fun x hx => h x (List.mem_cons_of_mem t hx))
    simp [runReauthenticateInvocations, reauthenticatePusherInvoke, throttleInvoke,
      Nat.not_le.mpr ht, hrest]

/-- C5: the throttled `reauthenticatePusher` with its 5-second window and
no trailing call — any sequence of invocations all occurring within 5
seconds of the first executes the underlying re-authentication body
exactly once, the dropped invocations scheduling nothing later. -/
theorem claim_C5_reauthenticatePusherThrottle (t0 : Nat) (ts : List Nat)
    (h : ∀ t ∈ ts, t0 ≤ t ∧ t < t0 + 5000) :
    (runReauthenticateInvocations ⟨none⟩ (t0 :: ts)).2 = 1
    ∧ (runReauthenticateInvocations ⟨none⟩ (t0 :: ts)).1 = ⟨some t0⟩ := by
  have hwin : ∀ t ∈ ts, t < t0 + REAUTHENTICATE_PUSHER_WAIT := by
    intro t ht
    exact (h t ht).2
  simp [runReauthenticateInvocations, reauthenticatePusherInvoke, throttleInvoke,
    runReauthenticateInvocations_window t0 ts hwin]

/-- C5 witness: ten invocations inside one 5-second window collapse into
a single execution of the re-authentication body. -/
theorem claim_C5_reauthenticatePusherThrottle_witness :
    (runReauthenticateInvocations ⟨none⟩
      [0, 1, 2, 3, 100, 200, 300, 1000, 2500, 4999]).2 = 1 :=
  (claim_C5_reauthenticatePusherThrottle 0
    [1, 2, 3, 100, 200, 300, 1000, 2500, 4999] (by decide)).1

/-- C6: `setSupportAuthToken` with a non-empty token merges `authToken`,
`supportAuthToken`, `email` and `accountID` into the session and leaves
every other session field unchanged; with the empty token it sets the
session to the empty object. -/
theorem claim_C6_setSupportAuthToken (token email : String) (accountID : Nat)
    (s : SessionData) :
    (token ≠ "" →
      (setSupportAuthToken token email accountID s).session.authToken = some "1"
      ∧ (setSupportAuthToken token email accountID s).session.supportAuthToken = some token
      ∧ (setSupportAuthToken token email accountID s).session.email = some email
      ∧ (setSupportAuthToken token email accountID s).session.accountID = some accountID
      ∧ (setSupportAuthToken token email accountID s).session.authTokenType = s.authTokenType
      ∧ (setSupportAuthToken token email accountID s).session.autoAuthState = s.autoAuthState)
    ∧ (token = "" →
        (setSupportAuthToken token email accountID s).session = emptySession) := by
  constructor
  · intro h
    simp [setSupportAuthToken, mergeSession, SessionPatch.empty, h]
  · intro h
    simp [setSupportAuthToken, h]

/-- C6 witness: a support token sets the four auth fields and keeps the
rest, and the empty token wipes the session. -/
theorem claim_C6_setSupportAuthToken_witness :
    (setSupportAuthToken "tok" "a@b.c" 5
        { emptySession with
          authTokenType := some "support",
          autoAuthState := some AutoAuthState.failed }).session.supportAuthToken = some "tok"
    ∧ (setSupportAuthToken "tok" "a@b.c" 5
        { emptySession with
          authTokenType := some "support",
          autoAuthState := some AutoAuthState.failed }).session.autoAuthState
        = some AutoAuthState.failed
    ∧ (setSupportAuthToken "" "a@b.c" 5
        { emptySession with authToken := some "old" }).session = emptySession :=
  ⟨((claim_C6_setSupportAuthToken "tok" "a@b.c" 5 _).1 (by decide)).2.1,
   ((claim_C6_setSupportAuthToken "tok" "a@b.c" 5 _).1 (by decide)).2.2.2.2.2,
   (claim_C6_setSupportAuthToken "" "a@b.c" 5 _).2 rfl⟩

/-- C7: `signOut` always performs the log flush first, then the
fire-and-forget `LogOut` write, and reaches the cache-clear and
timing-clear steps for every possible fate of the logout command — the
trace does not depend on the command's outcome and no failure is
surfaced. -/
theorem claim_C7_signOut (config : PartnerConfig) (networkStoreAuthToken : Option String)
    (credentials : CredentialsData) :
    (∀ o : CommandOutcome,
      signOut o config networkStoreAuthToken credentials =
        [SignOutStep.logFlush,
         SignOutStep.apiWriteLogOut
           { authToken := networkStoreAuthToken,
             partnerUserID := credentials.autoGeneratedLogin.getD "",
             partnerName := config.partnerName,
             partnerPassword := config.partnerPassword,
             shouldRetry := false },
         SignOutStep.clearCacheInvoked,
         SignOutStep.timingClearData])
    ∧ (∀ o₁ o₂ : CommandOutcome,
        signOut o₁ config networkStoreAuthToken credentials =
          signOut o₂ config networkStoreAuthToken credentials)
    ∧ (∀ o : CommandOutcome,
        (signOut o config networkStoreAuthToken credentials).head? = some SignOutStep.logFlush
        ∧ SignOutStep.clearCacheInvoked ∈ signOut o config networkStoreAuthToken credentials
        ∧ SignOutStep.timingClearData ∈ signOut o config networkStoreAuthToken credentials) := by
  refine ⟨fun o => rfl, fun o₁ o₂ => rfl, fun o => ⟨rfl, ?_, ?_⟩⟩ <;> simp [signOut]

/-- C8: `signInWithValidateCode` sends the Credential Store's validate
code when a two-factor code is supplied and the caller's code otherwise,
and its optimistic, success and failure patch lists carry exactly one
session `autoAuthState` update each: `SIGNING_IN`, `JUST_SIGNED_IN` and
`FAILED` respectively. -/
theorem claim_C8_signInWithValidateCode (credentials : CredentialsData)
    (accountID : Nat) (code : String) (twoFactorAuthCode : String) :
    (twoFactorAuthCode ≠ "" →
      (signInWithValidateCode credentials accountID code twoFactorAuthCode).params.validateCode
        = credentials.validateCode)
    ∧ (twoFactorAuthCode = "" →
        (signInWithValidateCode credentials accountID code twoFactorAuthCode).params.validateCode
          = some code)
    ∧ sessionAutoAuthUpdates
        (signInWithValidateCode credentials accountID code twoFactorAuthCode).optimisticData
        = [some AutoAuthState.signingIn]
    ∧ sessionAutoAuthUpdates
        (signInWithValidateCode credentials accountID code twoFactorAuthCode).successData
        = [some AutoAuthState.justSignedIn]
    ∧ sessionAutoAuthUpdates
        (signInWithValidateCode credentials accountID code twoFactorAuthCode).failureData
        = [some AutoAuthState.failed] := by
  refine ⟨fun h => ?_, fun h => ?_, ?_, ?_, ?_⟩ <;>
    simp [signInWithValidateCode, sessionAutoAuthUpdates, SessionPatch.empty, *]

/-- C8 witness: with a two-factor code the stored validate code `123456`
is sent instead of the caller's `999999`; without one the caller's code
is sent. -/
theorem claim_C8_signInWithValidateCode_witness :
    (signInWithValidateCode ⟨none, none, none, some "123456"⟩ 42 "999999" "654321").params.validateCode
      = some "123456"
    ∧ (signInWithValidateCode ⟨none, none, none, some "123456"⟩ 42 "999999" "").params.validateCode
      = some "999999" :=
  ⟨(claim_C8_signInWithValidateCode ⟨none, none, none, some "123456"⟩ 42 "999999" "654321").1
     (by decide),
   (claim_C8_signInWithValidateCode ⟨none, none, none, some "123456"⟩ 42 "999999" "").2.1 rfl⟩

end SessionModule

namespace SessionModule

/-- Replacing a non-empty, slash-free report id by `:reportID` does not
change whether the route starts with `/` — the code's leading-slash test
on `route` and the claim's test on the normalized route agree. -/
theorem replaceFirst_head_slash (rid route : List Char)
    (hne : rid ≠ []) (hslash : '/' ∉ rid) :
    ((replaceFirst rid (":reportID".data) route).head? = some '/')
      ↔ (route.head? = some '/') := by
  cases route with
  | nil => simp [replaceFirst, hne]
  | cons c rest =>
    by_cases hp : rid.isPrefixOf (c :: rest)
    · have hc : c ≠ '/' := by
        cases rid with
        | nil => exact absurd rfl hne
        | cons r0 rtl =>
          simp [List.isPrefixOf] at hp
          intro hcs
          exact hslash (by simp [hp.1, hcs])
      simp [replaceFirst, hp]
      intro habs
      exact hc habs
    · simp [replaceFirst, hp]

end SessionModule

namespace SessionModule

/-- The normalized route starts with `/` exactly when the route does,
provided every parsed report id is slash-free. -/
theorem withReportIdPlaceholder_head_slash
    (parseReportRouteParams : List Char → Option (List Char)) (route : List Char)
    (hrid : ∀ rid, parseReportRouteParams route = some rid → '/' ∉ rid) :
    ((withReportIdPlaceholder parseReportRouteParams route).head? = some '/')
      ↔ (route.head? = some '/') := by
  unfold withReportIdPlaceholder
  cases hp : parseReportRouteParams route with
  | none => simp
  | some rid =>
    by_cases hnil : rid = []
    · simp [hnil]
    · simp only [if_pos hnil]
      exact replaceFirst_head_slash rid route hnil (hrid rid hp)

/-- C9: `canAccessRouteByAnonymousUser(route)` returns true exactly when
the route encodes a (truthy) report identifier, or the route — with any
embedded report identifier replaced by the `:reportID` placeholder and
any leading `/` stripped — equals one of the three allow-listed
templates; report identifiers are assumed slash-free so that the code's
leading-slash test on the raw route agrees with stripping the normalized
route. -/
theorem claim_C9_canAccessRouteByAnonymousUser
    (getReportIDFromLink : List Char → List Char)
    (parseReportRouteParams : List Char → Option (List Char))
    (route : List Char)
    (hrid : ∀ rid, parseReportRouteParams route = some rid → '/' ∉ rid) :
    canAccessRouteByAnonymousUser getReportIDFromLink parseReportRouteParams route = true
      ↔ (getReportIDFromLink route ≠ []
          ∨ stripLeadingSlash (withReportIdPlaceholder parseReportRouteParams route)
              ∈ routesCanAccessByAnonymousUser) := by
  have hstrip : stripLeadingSlash (withReportIdPlaceholder parseReportRouteParams route)
      = if route.head? = some '/'
        then (withReportIdPlaceholder parseReportRouteParams route).drop 1
        else withReportIdPlaceholder parseReportRouteParams route := by
    unfold stripLeadingSlash
    exact if_congr (withReportIdPlaceholder_head_slash parseReportRouteParams route hrid)
      rfl rfl
  by_cases hg : getReportIDFromLink route = []
  · simp [canAccessRouteByAnonymousUser, hg, hstrip]
  · simp [canAccessRouteByAnonymousUser, hg]

/-- C9 witness: with no report id anywhere, the sign-in-modal route with
a leading slash is allowed for anonymous users. -/
theorem claim_C9_canAccessRouteByAnonymousUser_witness :
    canAccessRouteByAnonymousUser (fun _ => []) (fun _ => none) "/sign-in-modal".data
      = true :=
  (claim_C9_canAccessRouteByAnonymousUser (fun _ => []) (fun _ => none)
      "/sign-in-modal".data (fun _ h => Option.noConfusion h)).mpr
    (Or.inr (by decide))

end SessionModule

namespace WalletForm

/-- C10: the social-security-number step's `validate` attaches the
required-field error under `ssnLast4` when that field is empty, attaches
`'bankAccount.error.ssnLast4'` under `ssn` exactly when `ssn` is
non-empty and not a valid last-four SSN, and the two checks inspect
disjoint fields: the `ssnLast4` error never depends on `ssn` and the
`ssn` error never depends on `ssnLast4`. -/
theorem claim_C10_validate (isValidSSNLastFour : String → Bool) (values : FormValues) :
    (values.ssnLast4 = "" →
      (validate isValidSSNLastFour values).ssnLast4 = some fieldRequiredError)
    ∧ ((validate isValidSSNLastFour values).ssn = some "bankAccount.error.ssnLast4"
        ↔ values.ssn ≠ "" ∧ ¬ isValidSSNLastFour values.ssn)
    ∧ (∀ other : String,
        (validate isValidSSNLastFour { values with ssn := other }).ssnLast4
          = (validate isValidSSNLastFour values).ssnLast4)
    ∧ (∀ other : String,
        (validate isValidSSNLastFour { values with ssnLast4 := other }).ssn
          = (validate isValidSSNLastFour values).ssn) := by
  refine ⟨fun h => ?_, ?_, fun other => ?_, fun other => ?_⟩
  · simp only [validate, getFieldRequiredErrors, STEP_FIELDS, FormValues.value, h]
    split <;> simp
  · simp only [validate, getFieldRequiredErrors, STEP_FIELDS, FormValues.value]
    split_ifs with hc <;> simp_all
  · simp only [validate, getFieldRequiredErrors, STEP_FIELDS, FormValues.value]
    split <;> split <;> simp [apply_ite]
  · simp only [validate, getFieldRequiredErrors, STEP_FIELDS, FormValues.value]
    split_ifs with hc <;> rfl

/-- C10 witness: an empty `ssnLast4` gets the required-field error, and a
non-empty invalid `ssn` gets the format error under the `ssn` key. -/
theorem claim_C10_validate_witness :
    (validate (fun s => s.length == 4) { ssnLast4 := "", ssn := "12" }).ssnLast4
      = some fieldRequiredError
    ∧ (validate (fun s => s.length == 4) { ssnLast4 := "", ssn := "12" }).ssn
      = some "bankAccount.error.ssnLast4" :=
  ⟨(claim_C10_validate (fun s => s.length == 4) { ssnLast4 := "", ssn := "12" }).1 rfl,
   ((claim_C10_validate (fun s => s.length == 4) { ssnLast4 := "", ssn := "12" }).2.1).mpr
     (by decide)⟩

end WalletForm
